import Mathlib

/-!
# livesim2: the live request handler and the handover predicate

A shallow embedding of `cmd/livesim2/app/handler_livesim.go`
(`ifHandoverPeriod`, `livesimHandlerFunc`, `writeLiveMPD`, `writeSegment`)
together with the one field of `Server` (`server.go`) that the handler reads.

Conventions of the embedding.

* Go strings are byte sequences (`GoString`).
* Go `int` and `int64` are 64-bit two's complement: values are integers and
  every arithmetic result is reduced with `wrapInt64`.
* Readings of the wall clock (`time.Now().UnixMilli()`) are explicit inputs
  (`Clock`), one per place where the source reads the clock.
* Functions and types of the package whose declarations are not part of the
  two source files, and the standard-library `url.Parse`, appear as fields of
  `Collaborators`; what they return is an input of the handler.
* A run of the handler is observed as an `Outcome`: the ordered list of calls
  made to the asset registry and to the delivery functions, and the way the
  handler itself finishes (a call of `http.Error`, a plain return, or a
  run-time panic of an out-of-range slice expression).
-/

namespace Livesim

/-! ## Go base types -/

/-- A Go `string`: an immutable sequence of bytes. -/
abbrev GoString := List UInt8

/-- The bytes of an ASCII string literal of the source. -/
def str (s : String) : GoString := s.toList.map (fun c => c.toNat.toUInt8)

/-- Reduction of an integer to the 64-bit two's complement range, the value a
Go `int64` (and `int` on a 64-bit platform) holds after an arithmetic
operation. -/
def wrapInt64 (x : Int) : Int := (x + 9223372036854775808) % 18446744073709551616 - 9223372036854775808

/-- The decimal rendering of `%d` in `fmt.Sprintf`. -/
def fmtInt (n : Int) : GoString := str (toString n)

/-- The view the handler has of a Go `error` value: its message, whether
`errors.Is(err, errNotFound)` holds, and the message of the `errTooEarly`
that `errors.As` finds in its chain, if there is one. -/
structure GoError where
  /-- Result of `err.Error()`. -/
  msg : GoString
  /-- Result of `errors.Is(err, errNotFound)`. -/
  isNotFound : Bool
  /-- The `Error()` text of the target filled in by `errors.As(err, &tooEarly)`. -/
  asTooEarly : Option GoString
deriving DecidableEq, Repr

/-- Wrapping by `fmt.Errorf(pre + "%w", err)`: the message gets the leading
text, the chain inspected by `errors.Is` and `errors.As` is kept. -/
def GoError.wrapf (pre : GoString) (err : GoError) : GoError :=
  { err with msg := pre ++ err.msg }

/-! ## Status codes of `net/http` used by the handler -/

def StatusBadRequest : Nat := 400
def StatusNotFound : Nat := 404
def StatusTooEarly : Nat := 425
def StatusInternalServerError : Nat := 500

/-! ## Standard-library string functions used by the handler -/

/-- Scan of `filepath.Ext` from the last byte towards the first: `rev` holds the
bytes not yet visited, last byte first, and `acc` the bytes already passed. The
scan stops with the empty string at a path separator `/` (47) and with the
suffix starting at the dot at a `.` (46). -/
def extScan : List UInt8 → GoString → GoString
  | [], _ => []
  | b :: rev, acc =>
    if b = 47 then []
    else if b = 46 then b :: acc
    else extScan rev (b :: acc)

/-- Go `filepath.Ext` on a platform whose path separator is `/`: the suffix
beginning at the final dot in the final element of the path; empty if there is
no dot. -/
def Ext (path : GoString) : GoString := extScan path.reverse []

/-- Go `strings.HasPrefix`. -/
def HasPrefix (s pre : GoString) : Bool := pre.isPrefixOf s

/-- Go `strings.TrimPrefix`: `s` without the leading `pre`, or `s` itself when
`s` does not start with `pre`. -/
def TrimPrefix (s pre : GoString) : GoString :=
  if HasPrefix s pre then s.drop pre.length else s

/-- Go `path.Split`: the path is cut right after its final slash into a
directory and a file name. -/
def Split (path : GoString) : GoString × GoString :=
  let file := (path.reverse.takeWhile (fun b => b != 47)).reverse
  (path.take (path.length - file.length), file)

/-- Value of a non-empty run of ASCII decimal digits, `none` if the run is
empty or holds another byte. -/
def parseDigits : List UInt8 → Option Nat
  | [] => none
  | ds => if ds.all (fun b => decide (48 ≤ b.toNat ∧ b.toNat ≤ 57))
      then some (ds.foldl (fun n b => n * 10 + (b.toNat - 48)) 0) else none

/-- Go `strconv.Atoi` on a 64-bit platform: an optional sign followed by
decimal digits, with a value that fits `int`; `none` stands for a returned
error. -/
def Atoi (s : GoString) : Option Int :=
  match s with
  | [] => none
  | b :: rest =>
    match parseDigits (if b = 45 ∨ b = 43 then rest else s) with
    | none => none
    | some n =>
      let v : Int := if b = 45 then -(n : Int) else (n : Int)
      if -9223372036854775808 ≤ v ∧ v ≤ 9223372036854775807 then some v else none

/-! ## Data model -/

/-- Modelled from the spec: the declaration of `ResponseConfig` (the
SimulationConfig of the data model) is not among the source files. It carries
the members the handler reads: the content part of the URL (the result of the
method `URLContentPart`), the stream-start epoch in seconds and the two
feature flags. -/
structure ResponseConfig where
  URLContentPart : GoString
  StartTimeS : Int
  AvailabilityTimeCompleteFlag : Bool
  DynamicChunkFlag : Bool
  /-- Set by `SetScheme`. -/
  Scheme : GoString
  /-- Set by `SetHost`. -/
  Host : GoString
deriving DecidableEq, Repr

/-- Modelled from the spec: the declaration of `asset` (the Asset of the data
model) is not among the source files. The handler reads its root path. -/
structure asset where
  AssetPath : GoString
deriving DecidableEq, Repr

/-- The live manifest returned by `LiveMPD`, seen through the one call the
source makes on it, `lMPD.Write(buf, "  ", true)`: the bytes put in the
buffer, the returned size and the returned error. -/
structure MPD where
  xml : GoString
  size : Int
  writeErr : Option GoError
deriving DecidableEq, Repr

/-- The part of `Server` (server.go) read by the handler: the process-start
instant in milliseconds. -/
structure Server where
  InitTime : Int
deriving DecidableEq, Repr

/-- The part of an `http.Request` read by the handler. -/
structure Request where
  /-- Value of `r.URL.Path`. -/
  Path : GoString
  /-- Value of `r.URL.Query().Get("nowMS")`, empty when the key is absent. -/
  nowMSValue : GoString
deriving DecidableEq, Repr

/-- The readings of `time.Now().UnixMilli()` a run may take. -/
structure Clock where
  /-- Reading taken in `livesimHandlerFunc` when there is no `nowMS` override. -/
  atRequest : Int
  /-- Reading taken inside `ifHandoverPeriod`. -/
  atHandover : Int
deriving DecidableEq, Repr

/-- Results of the functions the handler calls and whose bodies are outside
the two source files. An `Option GoError` is a returned `error`, `none`
being `nil`. -/
structure Collaborators where
  /-- Results of `url.Parse(uPath)` followed by `u.String()`; `none` is a parse error. -/
  urlParse : GoString → Option GoString
  /-- Results of `processURLCfg(url, nowMS)`. -/
  processURLCfg : GoString → Int → Except GoError ResponseConfig
  /-- Results of `s.assetMgr.findAsset(contentPart)`. -/
  findAsset : GoString → Option asset
  /-- Effect of `cfg.SetScheme(s.Cfg.Scheme, r)` on the configuration. -/
  SetScheme : ResponseConfig → ResponseConfig
  /-- Effect of `cfg.SetHost(s.Cfg.Host, r)` on the configuration. -/
  SetHost : ResponseConfig → ResponseConfig
  /-- Results of `LiveMPD(a, mpdName, cfg, nowMS)`. -/
  LiveMPD : asset → GoString → ResponseConfig → Int → Except GoError MPD
  /-- Results of `w.Write(bytes)`: the number of bytes written and the error. -/
  responseWrite : GoString → Int × Option GoError
  /-- Results of `writeInitSegment(w, cfg, vodFS, a, segmentPart)`. -/
  writeInitSegment : ResponseConfig → asset → GoString → Bool × Option GoError
  /-- Results of `writeChunkedSegment(ctx, w, log, cfg, vodFS, a, segmentPart, nowMS)`. -/
  writeChunkedSegment : ResponseConfig → asset → GoString → Int → Option GoError
  /-- Results of `writeLiveSegment(w, cfg, vodFS, a, segmentPart, nowMS, tt)`. -/
  writeLiveSegment : ResponseConfig → asset → GoString → Int → Option GoError

/-- The calls recorded in the trace of a run. -/
inductive Call where
  | findAsset
  | writeLiveMPD
  | writeSegment
  | writeInitSegment
  | writeChunkedSegment
  | writeLiveSegment
deriving DecidableEq, Repr

/-- How the handler itself finishes. -/
inductive Reply where
  /-- The handler called `http.Error(w, msg, code)`. -/
  | httpError (msg : GoString) (code : Nat)
  /-- The handler returned without calling `http.Error`. -/
  | done
  /-- A run-time panic stopped the handler. -/
  | panic
deriving DecidableEq, Repr

/-- The status code the handler set through `http.Error`, if it did. -/
def Reply.code : Reply → Option Nat
  | .httpError _ code => some code
  | .done => none
  | .panic => none

/-- The observable result of one run of the handler. -/
structure Outcome where
  calls : List Call
  reply : Reply
deriving DecidableEq, Repr

/-! ## `ifHandoverPeriod` -/

/-- The literal table `handovermoment` of `ifHandoverPeriod`. -/
def handovermoment : List Int :=
  [12, 27, 42, 57, 72, 87, 102, 117, 132, 147, 162, 177, 192, 207, 222, 237, 252,
   267, 282, 297, 312, 327, 342, 357, 373]

/-- The difference `nowTime - s.InitTime` of `ifHandoverPeriod` in `int64`
arithmetic: the milliseconds elapsed since process start. -/
def elapsedMS (InitTime nowTime : Int) : Int := wrapInt64 (nowTime - InitTime)

/-- The local `period` of `ifHandoverPeriod`: `(nowTime - s.InitTime) / 1000`,
the quotient truncated towards zero: the whole seconds elapsed since process
start. -/
def handoverPeriod (InitTime nowTime : Int) : Int :=
  Int.tdiv (elapsedMS InitTime nowTime) 1000

/-- The `for` loop of `ifHandoverPeriod` over the table entries still to visit. -/
def handoverLoop (period : Int) : List Int → Bool
  | [] => false
  | h :: rest =>
    if period > h - 1 ∧ period < h + 1 then true else handoverLoop period rest

/-- The method `(s *Server) ifHandoverPeriod()`, with the process-start instant
`s.InitTime` and the clock reading `nowTime` as arguments. -/
def ifHandoverPeriod (InitTime nowTime : Int) : Bool :=
  handoverLoop (handoverPeriod InitTime nowTime) handovermoment

/-! ## `writeLiveMPD` and `writeSegment` -/

/-- The function `writeLiveMPD`: its returned error. -/
def writeLiveMPD (c : Collaborators) (cfg : ResponseConfig) (a : asset)
    (mpdName : GoString) (nowMS : Int) : Option GoError :=
  match c.LiveMPD a mpdName cfg nowMS with
  | .error err => some (err.wrapf (str "convertToLive: "))
  | .ok lMPD =>
    match lMPD.writeErr with
    | some err => some err
    | none =>
      match c.responseWrite lMPD.xml with
      | (_, some err) => some err
      | (n, none) =>
        -- `return err` after the size check returns the nil error of `w.Write`
        if n ≠ lMPD.size then none else none

/-- The function `writeSegment`: the calls it makes and its returned error. -/
def writeSegment (c : Collaborators) (cfg : ResponseConfig) (a : asset)
    (segmentPart : GoString) (nowMS : Int) (dynamicMode : Bool) :
    List Call × Option GoError :=
  match c.writeInitSegment cfg a segmentPart with
  | (_, some err) => ([Call.writeInitSegment], some (err.wrapf (str "writeInitSegment: ")))
  | (isInitSegment, none) =>
    if isInitSegment then ([Call.writeInitSegment], none)
    else if !cfg.AvailabilityTimeCompleteFlag && dynamicMode then
      ([Call.writeInitSegment, Call.writeChunkedSegment],
        c.writeChunkedSegment cfg a segmentPart nowMS)
    else
      ([Call.writeInitSegment, Call.writeLiveSegment],
        c.writeLiveSegment cfg a segmentPart nowMS)

/-! ## `livesimHandlerFunc` -/

/-- Lines 52-63 of the handler: `nowMS` from the query value or from the wall
clock; `none` is the failure of `strconv.Atoi`. -/
def readNowMS (clock : Clock) (r : Request) : Option Int :=
  if r.nowMSValue ≠ [] then Atoi r.nowMSValue else some clock.atRequest

/-- Lines 104-114 of the handler: the local `dynamicMode`. -/
def dynamicModeOf (s : Server) (clock : Clock) (cfg : ResponseConfig) : Bool :=
  if cfg.DynamicChunkFlag then
    if ifHandoverPeriod s.InitTime clock.atHandover then true else false
  else false

/-- Lines 116-130 of the handler: the reply to an error of `writeSegment`. -/
def segmentErrorReply (err : GoError) : Reply :=
  if err.isNotFound then Reply.httpError (str "Not Found") StatusNotFound
  else match err.asTooEarly with
    | some text => Reply.httpError text StatusTooEarly
    | none => Reply.httpError (str "writeSegment") StatusInternalServerError

/-- The case `".mpd"` of the switch (lines 86-96). -/
def mpdCase (c : Collaborators) (cfg : ResponseConfig) (a : asset) (nowMS : Int) : Outcome :=
  let mpdName := (Split cfg.URLContentPart).2
  let cfg1 := c.SetHost (c.SetScheme cfg)
  match writeLiveMPD c cfg1 a mpdName nowMS with
  | some err =>
    ⟨[Call.findAsset, Call.writeLiveMPD],
      Reply.httpError (str "liveMPD: " ++ err.msg) StatusInternalServerError⟩
  | none => ⟨[Call.findAsset, Call.writeLiveMPD], Reply.done⟩

/-- The case `".mp4", ".m4s", ".cmfv", "cmfa", "cmft"` of the switch (lines
98-130). The slice expression `segmentPart[1:]` panics on an empty
`segmentPart`. -/
def segmentCase (s : Server) (c : Collaborators) (clock : Clock) (cfg : ResponseConfig)
    (a : asset) (nowMS : Int) : Outcome :=
  let segmentPart := TrimPrefix cfg.URLContentPart a.AssetPath
  let dynamicMode := dynamicModeOf s clock cfg
  match segmentPart with
  | [] => ⟨[Call.findAsset], Reply.panic⟩
  | _ :: tail =>
    match writeSegment c cfg a tail nowMS dynamicMode with
    | (calls, some err) => ⟨Call.findAsset :: Call.writeSegment :: calls, segmentErrorReply err⟩
    | (calls, none) => ⟨Call.findAsset :: Call.writeSegment :: calls, Reply.done⟩

/-- The `switch ext` of the handler (lines 84-134). -/
def switchExt (s : Server) (c : Collaborators) (clock : Clock) (ext : GoString)
    (cfg : ResponseConfig) (a : asset) (nowMS : Int) : Outcome :=
  if ext = str ".mpd" then mpdCase c cfg a nowMS
  else if ext = str ".mp4" ∨ ext = str ".m4s" ∨ ext = str ".cmfv" ∨ ext = str "cmfa"
      ∨ ext = str "cmft" then segmentCase s c clock cfg a nowMS
  else ⟨[Call.findAsset], Reply.httpError (str "unknown file extension") StatusNotFound⟩

/-- Lines 79-134 of the handler: the pre-start check and the switch, run once
the configuration is parsed and the asset is found. -/
def afterLookup (s : Server) (c : Collaborators) (clock : Clock) (ext : GoString)
    (cfg : ResponseConfig) (a : asset) (nowMS : Int) : Outcome :=
  if nowMS < wrapInt64 (cfg.StartTimeS * 1000) then
    let tooEarlyMS := wrapInt64 (cfg.StartTimeS - nowMS)
    ⟨[Call.findAsset], Reply.httpError (fmtInt tooEarlyMS ++ str "ms too early") StatusTooEarly⟩
  else switchExt s c clock ext cfg a nowMS

/-- The method `(s *Server) livesimHandlerFunc(w, r)`. -/
def livesimHandlerFunc (s : Server) (c : Collaborators) (clock : Clock) (r : Request) :
    Outcome :=
  let uPath := r.Path
  let ext := Ext uPath
  match c.urlParse uPath with
  | none => ⟨[], Reply.httpError (str "URL parser") StatusInternalServerError⟩
  | some u =>
    match readNowMS clock r with
    | none => ⟨[], Reply.httpError (str "bad nowMS query") StatusBadRequest⟩
    | some nowMS =>
      match c.processURLCfg u nowMS with
      | .error _ => ⟨[], Reply.httpError (str "processURL error") StatusInternalServerError⟩
      | .ok cfg =>
        match c.findAsset cfg.URLContentPart with
        | none => ⟨[Call.findAsset], Reply.httpError (str "unknown asset") StatusNotFound⟩
        | some a => afterLookup s c clock ext cfg a nowMS

/-! ## Concrete data used to run the definitions -/

/-- An asset stored under the path `testpic`. -/
def demoAsset : asset := ⟨str "testpic"⟩

/-- A configuration for the media segment `V300/7.m4s` of `demoAsset`. -/
def demoCfg (start : Int) (atc dyn : Bool) : ResponseConfig :=
  ⟨str "testpic/V300/7.m4s", start, atc, dyn, [], []⟩

/-- Collaborators with fixed answers: every path parses to itself, the
configuration parser answers `cfg`, the registry holds the one asset `a` and
finds it for the content paths that start with its path, and the three segment
writers answer `init`, `chunked` and `live`. -/
def collaboratorsFor (a : asset) (cfg : Except GoError ResponseConfig)
    (init : Bool × Option GoError) (chunked live : Option GoError) : Collaborators where
  urlParse := fun p => some p
  processURLCfg := fun _ _ => cfg
  findAsset := fun p => if HasPrefix p a.AssetPath then some a else none
  SetScheme := fun cfg1 => cfg1
  SetHost := fun cfg1 => cfg1
  LiveMPD := fun _ _ _ _ => Except.ok ⟨str "<MPD/>", 6, none⟩
  responseWrite := fun bytes => ((bytes.length : Int), none)
  writeInitSegment := fun _ _ _ => init
  writeChunkedSegment := fun _ _ _ _ => chunked
  writeLiveSegment := fun _ _ _ _ => live

/-- The collaborators `collaboratorsFor` around the asset `demoAsset`. -/
def demoCollaborators (cfg : Except GoError ResponseConfig) (init : Bool × Option GoError)
    (chunked live : Option GoError) : Collaborators :=
  collaboratorsFor demoAsset cfg init chunked live

/-- A request for the media segment `V300/7.m4s` with the given `nowMS` query value. -/
def demoRequest (nowMSValue : String) : Request :=
  ⟨str "/livesim2/testpic/V300/7.m4s", str nowMSValue⟩

/-- An error that is an `errTooEarly` and not `errNotFound`. -/
def demoTooEarly : GoError := ⟨str "too early by 3000ms", false, some (str "too early by 3000ms")⟩

/-! ## General lemmas -/

theorem handoverLoop_eq_true_iff (period : Int) (table : List Int) :
    handoverLoop period table = true ↔ period ∈ table := by
  induction table with
  | nil => simp [handoverLoop]
  | cons h rest ih =>
    by_cases hw : period > h - 1 ∧ period < h + 1
    · have : period = h := by omega
      simp [handoverLoop, hw, this]
    · have : period ≠ h := by omega
      simp [handoverLoop, hw, ih, this]

theorem ifHandoverPeriod_eq_true_iff (InitTime nowTime : Int) :
    ifHandoverPeriod InitTime nowTime = true ↔
      handoverPeriod InitTime nowTime ∈ handovermoment := by
  unfold ifHandoverPeriod
  exact handoverLoop_eq_true_iff _ _

theorem handovermoment_pos : ∀ h ∈ handovermoment, 0 < h := by decide

theorem tdiv_thousand_eq_iff (e h : Int) (hpos : 0 < h) :
    Int.tdiv e 1000 = h ↔ 1000 * h ≤ e ∧ e < 1000 * (h + 1) := by
  rcases Int.lt_or_le e 0 with hneg | hnonneg
  · have h1 : 0 ≤ Int.tdiv (-e) 1000 := Int.tdiv_nonneg (by omega) (by omega)
    have h2 : Int.tdiv e 1000 = -Int.tdiv (-e) 1000 := by
      rw [Int.neg_tdiv]; omega
    constructor
    · intro h3; omega
    · intro h3; omega
  · rw [Int.tdiv_eq_ediv hnonneg (by omega)]
    omega

theorem handler_eq_afterLookup (s : Server) (c : Collaborators) (clock : Clock)
    (r : Request) (u : GoString) (nowMS : Int) (cfg : ResponseConfig) (a : asset)
    (hu : c.urlParse r.Path = some u) (hn : readNowMS clock r = some nowMS)
    (hc : c.processURLCfg u nowMS = Except.ok cfg)
    (ha : c.findAsset cfg.URLContentPart = some a) :
    livesimHandlerFunc s c clock r = afterLookup s c clock (Ext r.Path) cfg a nowMS := by
  simp only [livesimHandlerFunc, hu, hn, hc, ha]

theorem afterLookup_started (s : Server) (c : Collaborators) (clock : Clock)
    (ext : GoString) (cfg : ResponseConfig) (a : asset) (nowMS : Int)
    (hstart : ¬ nowMS < wrapInt64 (cfg.StartTimeS * 1000)) :
    afterLookup s c clock ext cfg a nowMS = switchExt s c clock ext cfg a nowMS := by
  simp only [afterLookup, if_neg hstart]

theorem afterLookup_early (s : Server) (c : Collaborators) (clock : Clock)
    (ext : GoString) (cfg : ResponseConfig) (a : asset) (nowMS : Int)
    (hearly : nowMS < wrapInt64 (cfg.StartTimeS * 1000)) :
    afterLookup s c clock ext cfg a nowMS =
      ⟨[Call.findAsset], Reply.httpError
        (fmtInt (wrapInt64 (cfg.StartTimeS - nowMS)) ++ str "ms too early") StatusTooEarly⟩ := by
  simp only [afterLookup, if_pos hearly]

theorem switchExt_segment (s : Server) (c : Collaborators) (clock : Clock)
    (ext : GoString) (cfg : ResponseConfig) (a : asset) (nowMS : Int)
    (hext : ext = str ".mp4" ∨ ext = str ".m4s" ∨ ext = str ".cmfv") :
    switchExt s c clock ext cfg a nowMS = segmentCase s c clock cfg a nowMS := by
  have hmpd : ext ≠ str ".mpd" := by
    rcases hext with h | h | h <;> rw [h] <;> decide
  have hany : ext = str ".mp4" ∨ ext = str ".m4s" ∨ ext = str ".cmfv" ∨ ext = str "cmfa"
      ∨ ext = str "cmft" := by
    rcases hext with h | h | h
    · exact Or.inl h
    · exact Or.inr (Or.inl h)
    · exact Or.inr (Or.inr (Or.inl h))
  simp only [switchExt, if_neg hmpd, if_pos hany]

theorem segmentCase_cons (s : Server) (c : Collaborators) (clock : Clock)
    (cfg : ResponseConfig) (a : asset) (nowMS : Int) (b : UInt8) (seg : GoString)
    (hseg : TrimPrefix cfg.URLContentPart a.AssetPath = b :: seg) :
    segmentCase s c clock cfg a nowMS =
      ⟨Call.findAsset :: Call.writeSegment ::
          (writeSegment c cfg a seg nowMS (dynamicModeOf s clock cfg)).1,
        match (writeSegment c cfg a seg nowMS (dynamicModeOf s clock cfg)).2 with
        | some err => segmentErrorReply err
        | none => Reply.done⟩ := by
  simp only [segmentCase, hseg]
  rcases hw : writeSegment c cfg a seg nowMS (dynamicModeOf s clock cfg) with ⟨calls, _ | err⟩
  · rfl
  · rfl

theorem writeSegment_media (c : Collaborators) (cfg : ResponseConfig) (a : asset)
    (seg : GoString) (nowMS : Int) (dynamicMode : Bool)
    (hinit : c.writeInitSegment cfg a seg = (false, none)) :
    writeSegment c cfg a seg nowMS dynamicMode =
      if (!cfg.AvailabilityTimeCompleteFlag && dynamicMode) = true then
        ([Call.writeInitSegment, Call.writeChunkedSegment],
          c.writeChunkedSegment cfg a seg nowMS)
      else
        ([Call.writeInitSegment, Call.writeLiveSegment], c.writeLiveSegment cfg a seg nowMS) := by
  simp [writeSegment, hinit]

theorem dynamicModeOf_eq (s : Server) (clock : Clock) (cfg : ResponseConfig) :
    dynamicModeOf s clock cfg =
      (cfg.DynamicChunkFlag && ifHandoverPeriod s.InitTime clock.atHandover) := by
  unfold dynamicModeOf
  cases cfg.DynamicChunkFlag <;> cases ifHandoverPeriod s.InitTime clock.atHandover <;> rfl

/-- The handler on a media segment request that reaches `writeSegment`. -/
theorem handler_media_segment (s : Server) (c : Collaborators) (clock : Clock)
    (r : Request) (u : GoString) (nowMS : Int) (cfg : ResponseConfig) (a : asset)
    (b : UInt8) (seg : GoString)
    (hu : c.urlParse r.Path = some u) (hn : readNowMS clock r = some nowMS)
    (hc : c.processURLCfg u nowMS = Except.ok cfg)
    (ha : c.findAsset cfg.URLContentPart = some a)
    (hstart : ¬ nowMS < wrapInt64 (cfg.StartTimeS * 1000))
    (hext : Ext r.Path = str ".mp4" ∨ Ext r.Path = str ".m4s" ∨ Ext r.Path = str ".cmfv")
    (hseg : TrimPrefix cfg.URLContentPart a.AssetPath = b :: seg) :
    livesimHandlerFunc s c clock r =
      ⟨Call.findAsset :: Call.writeSegment ::
          (writeSegment c cfg a seg nowMS (dynamicModeOf s clock cfg)).1,
        match (writeSegment c cfg a seg nowMS (dynamicModeOf s clock cfg)).2 with
        | some err => segmentErrorReply err
        | none => Reply.done⟩ := by
  rw [handler_eq_afterLookup s c clock r u nowMS cfg a hu hn hc ha,
    afterLookup_started s c clock _ cfg a nowMS hstart,
    switchExt_segment s c clock _ cfg a nowMS hext,
    segmentCase_cons s c clock cfg a nowMS b seg hseg]

theorem extScan_shape (rev : List UInt8) (acc : GoString) :
    extScan rev acc = [] ∨ ∃ t, extScan rev acc = 46 :: t := by
  induction rev generalizing acc with
  | nil => exact Or.inl rfl
  | cons b rev ih =>
    unfold extScan
    by_cases h47 : b = 47
    · simp [h47]
    · by_cases h46 : b = 46
      · right
        exact ⟨acc, by simp [h46]⟩
      · simp only [if_neg h47, if_neg h46]
        exact ih (b :: acc)

/-- `filepath.Ext` returns the empty string or a string that starts with a dot. -/
theorem Ext_shape (path : GoString) : Ext path = [] ∨ ∃ t, Ext path = 46 :: t :=
  extScan_shape path.reverse []

theorem Ext_ne_cmfa (path : GoString) : Ext path ≠ str "cmfa" := by
  intro h
  rcases Ext_shape path with h0 | ⟨t, ht⟩
  · rw [h0] at h
    exact absurd h (by decide)
  · rw [ht] at h
    have h1 : (46 : UInt8) = 99 := (List.cons.inj h).1
    exact absurd h1 (by decide)

theorem Ext_ne_cmft (path : GoString) : Ext path ≠ str "cmft" := by
  intro h
  rcases Ext_shape path with h0 | ⟨t, ht⟩
  · rw [h0] at h
    exact absurd h (by decide)
  · rw [ht] at h
    have h1 : (46 : UInt8) = 99 := (List.cons.inj h).1
    exact absurd h1 (by decide)

/-- The three ways the `switch` of the handler goes on an extension returned by
`filepath.Ext`. -/
theorem switchExt_Ext_cases (s : Server) (c : Collaborators) (clock : Clock)
    (path : GoString) (cfg : ResponseConfig) (a : asset) (nowMS : Int) :
    (Ext path = str ".mpd"
      ∧ switchExt s c clock (Ext path) cfg a nowMS = mpdCase c cfg a nowMS)
    ∨ ((Ext path = str ".mp4" ∨ Ext path = str ".m4s" ∨ Ext path = str ".cmfv")
      ∧ Ext path ≠ str ".mpd"
      ∧ switchExt s c clock (Ext path) cfg a nowMS = segmentCase s c clock cfg a nowMS)
    ∨ (Ext path ≠ str ".mpd"
      ∧ ¬ (Ext path = str ".mp4" ∨ Ext path = str ".m4s" ∨ Ext path = str ".cmfv")
      ∧ switchExt s c clock (Ext path) cfg a nowMS =
          ⟨[Call.findAsset],
            Reply.httpError (str "unknown file extension") StatusNotFound⟩) := by
  by_cases h1 : Ext path = str ".mpd"
  · left
    exact ⟨h1, by simp only [switchExt, if_pos h1]⟩
  · by_cases h2 : Ext path = str ".mp4" ∨ Ext path = str ".m4s" ∨ Ext path = str ".cmfv"
    · right; left
      exact ⟨h2, h1, switchExt_segment s c clock _ cfg a nowMS h2⟩
    · right; right
      have h5 : ¬ (Ext path = str ".mp4" ∨ Ext path = str ".m4s" ∨ Ext path = str ".cmfv"
          ∨ Ext path = str "cmfa" ∨ Ext path = str "cmft") := by
        rintro (h | h | h | h | h)
        · exact h2 (Or.inl h)
        · exact h2 (Or.inr (Or.inl h))
        · exact h2 (Or.inr (Or.inr h))
        · exact Ext_ne_cmfa path h
        · exact Ext_ne_cmft path h
      exact ⟨h1, h2, by simp only [switchExt, if_neg h1, if_neg h5]⟩

theorem mpdCase_calls (c : Collaborators) (cfg : ResponseConfig) (a : asset) (nowMS : Int) :
    (mpdCase c cfg a nowMS).calls = [Call.findAsset, Call.writeLiveMPD] := by
  simp only [mpdCase]
  cases writeLiveMPD c (c.SetHost (c.SetScheme cfg)) a (Split cfg.URLContentPart).2 nowMS <;> rfl

theorem mpdCase_code (c : Collaborators) (cfg : ResponseConfig) (a : asset) (nowMS : Int) :
    (mpdCase c cfg a nowMS).reply.code ≠ some StatusTooEarly := by
  simp only [mpdCase]
  cases writeLiveMPD c (c.SetHost (c.SetScheme cfg)) a (Split cfg.URLContentPart).2 nowMS <;>
    simp [Reply.code, StatusTooEarly, StatusInternalServerError]

theorem writeSegment_calls (c : Collaborators) (cfg : ResponseConfig) (a : asset)
    (seg : GoString) (nowMS : Int) (dynamicMode : Bool) :
    (writeSegment c cfg a seg nowMS dynamicMode).1 = [Call.writeInitSegment]
    ∨ (writeSegment c cfg a seg nowMS dynamicMode).1 =
        [Call.writeInitSegment, Call.writeChunkedSegment]
    ∨ (writeSegment c cfg a seg nowMS dynamicMode).1 =
        [Call.writeInitSegment, Call.writeLiveSegment] := by
  unfold writeSegment
  split
  · exact Or.inl rfl
  · split
    · exact Or.inl rfl
    · split
      · exact Or.inr (Or.inl rfl)
      · exact Or.inr (Or.inr rfl)

theorem segmentErrorReply_code (err : GoError) :
    ((segmentErrorReply err).code = some StatusNotFound ↔ err.isNotFound = true)
    ∧ ((segmentErrorReply err).code = some StatusTooEarly ↔
        (err.isNotFound = false ∧ err.asTooEarly ≠ none)) := by
  unfold segmentErrorReply
  cases hnf : err.isNotFound <;> cases hte : err.asTooEarly <;>
    simp [Reply.code, StatusNotFound, StatusTooEarly, StatusInternalServerError]

theorem afterLookup_congr (s : Server) (c : Collaborators) (clock1 clock2 : Clock)
    (ext : GoString) (cfg : ResponseConfig) (a : asset) (nowMS : Int)
    (hdyn : dynamicModeOf s clock1 cfg = dynamicModeOf s clock2 cfg) :
    afterLookup s c clock1 ext cfg a nowMS = afterLookup s c clock2 ext cfg a nowMS := by
  simp only [afterLookup, switchExt, segmentCase, hdyn]

/-! ## The claims -/

/-- C1, counterexample. With full-availability semantics demanded
(`AvailabilityTimeCompleteFlag` true), the chunked capability enabled and the
handover predicate true at 27 elapsed seconds, the media segment request is
answered through `writeLiveSegment`, not through `writeChunkedSegment`. -/
theorem chunked_not_chosen_under_full_availability :
    (demoCfg 10 true true).AvailabilityTimeCompleteFlag = true
    ∧ (demoCfg 10 true true).DynamicChunkFlag = true
    ∧ handoverPeriod 1000 28000 = 27
    ∧ ifHandoverPeriod 1000 28000 = true
    ∧ (livesimHandlerFunc ⟨1000⟩
        (demoCollaborators (Except.ok (demoCfg 10 true true)) (false, none) none none)
        ⟨28000, 28000⟩ (demoRequest "20000")).calls =
      [Call.findAsset, Call.writeSegment, Call.writeInitSegment, Call.writeLiveSegment] := by
  decide

/-- C1, amended. For every media (non-init) segment request that reaches
`writeSegment`, `writeChunkedSegment` is chosen exactly when
`cfg.AvailabilityTimeCompleteFlag` is false, `cfg.DynamicChunkFlag` is enabled
and the handover predicate is true at the clock reading; in every other case
`writeLiveSegment` is chosen. With the availability flag false and the chunked
capability enabled, 27 elapsed seconds since process start give the chunked
delivery, and 30 elapsed seconds give the full live delivery. -/
theorem segment_delivery_choice (s : Server) (c : Collaborators) (clock : Clock)
    (r : Request) (u : GoString) (nowMS : Int) (cfg : ResponseConfig) (a : asset)
    (b : UInt8) (seg : GoString)
    (hu : c.urlParse r.Path = some u) (hn : readNowMS clock r = some nowMS)
    (hc : c.processURLCfg u nowMS = Except.ok cfg)
    (ha : c.findAsset cfg.URLContentPart = some a)
    (hstart : ¬ nowMS < wrapInt64 (cfg.StartTimeS * 1000))
    (hext : Ext r.Path = str ".mp4" ∨ Ext r.Path = str ".m4s" ∨ Ext r.Path = str ".cmfv")
    (hseg : TrimPrefix cfg.URLContentPart a.AssetPath = b :: seg)
    (hinit : c.writeInitSegment cfg a seg = (false, none)) :
    ((livesimHandlerFunc s c clock r).calls =
        [Call.findAsset, Call.writeSegment, Call.writeInitSegment, Call.writeChunkedSegment]
      ↔ (cfg.AvailabilityTimeCompleteFlag = false ∧ cfg.DynamicChunkFlag = true
          ∧ ifHandoverPeriod s.InitTime clock.atHandover = true))
    ∧ ((livesimHandlerFunc s c clock r).calls =
        [Call.findAsset, Call.writeSegment, Call.writeInitSegment, Call.writeLiveSegment]
      ↔ ¬ (cfg.AvailabilityTimeCompleteFlag = false ∧ cfg.DynamicChunkFlag = true
          ∧ ifHandoverPeriod s.InitTime clock.atHandover = true))
    ∧ (cfg.AvailabilityTimeCompleteFlag = false → cfg.DynamicChunkFlag = true →
        handoverPeriod s.InitTime clock.atHandover = 27 →
        (livesimHandlerFunc s c clock r).calls =
          [Call.findAsset, Call.writeSegment, Call.writeInitSegment, Call.writeChunkedSegment])
    ∧ (handoverPeriod s.InitTime clock.atHandover = 30 →
        (livesimHandlerFunc s c clock r).calls =
          [Call.findAsset, Call.writeSegment, Call.writeInitSegment, Call.writeLiveSegment]) := by
  have h27 : handoverPeriod s.InitTime clock.atHandover = 27 →
      ifHandoverPeriod s.InitTime clock.atHandover = true := by
    intro hp
    rw [ifHandoverPeriod_eq_true_iff, hp]
    decide
  have h30 : handoverPeriod s.InitTime clock.atHandover = 30 →
      ifHandoverPeriod s.InitTime clock.atHandover = false := by
    intro hp
    rw [← Bool.not_eq_true, ifHandoverPeriod_eq_true_iff, hp]
    decide
  rw [handler_media_segment s c clock r u nowMS cfg a b seg hu hn hc ha hstart hext hseg,
    writeSegment_media c cfg a seg nowMS _ hinit, dynamicModeOf_eq]
  refine ⟨?_, ?_, ?_, ?_⟩
  · cases cfg.AvailabilityTimeCompleteFlag <;> cases cfg.DynamicChunkFlag <;>
      cases ifHandoverPeriod s.InitTime clock.atHandover <;> simp
  · cases cfg.AvailabilityTimeCompleteFlag <;> cases cfg.DynamicChunkFlag <;>
      cases ifHandoverPeriod s.InitTime clock.atHandover <;> simp
  · intro hatc hdyn hp
    simp [hatc, hdyn, h27 hp]
  · intro hp
    simp [h30 hp]

/-- Witness of C1: the availability flag false, the chunked capability enabled,
process start at instant 1000; the clock reading 28000 (27 elapsed seconds)
gives the chunked delivery and the reading 31000 (30 elapsed seconds) the full
live delivery. -/
theorem segment_delivery_choice_witness :
    (livesimHandlerFunc ⟨1000⟩
        (demoCollaborators (Except.ok (demoCfg 10 false true)) (false, none) none none)
        ⟨28000, 28000⟩ (demoRequest "20000")).calls =
      [Call.findAsset, Call.writeSegment, Call.writeInitSegment, Call.writeChunkedSegment]
    ∧ (livesimHandlerFunc ⟨1000⟩
        (demoCollaborators (Except.ok (demoCfg 10 false true)) (false, none) none none)
        ⟨31000, 31000⟩ (demoRequest "20000")).calls =
      [Call.findAsset, Call.writeSegment, Call.writeInitSegment, Call.writeLiveSegment] :=
  ⟨(segment_delivery_choice ⟨1000⟩
      (demoCollaborators (Except.ok (demoCfg 10 false true)) (false, none) none none)
      ⟨28000, 28000⟩ (demoRequest "20000") (demoRequest "20000").Path 20000
      (demoCfg 10 false true) demoAsset 47 (str "V300/7.m4s")
      rfl (by decide) rfl (by decide) (by decide) (Or.inr (Or.inl (by decide))) (by decide)
      rfl).2.2.1 rfl rfl (by decide),
   (segment_delivery_choice ⟨1000⟩
      (demoCollaborators (Except.ok (demoCfg 10 false true)) (false, none) none none)
      ⟨31000, 31000⟩ (demoRequest "20000") (demoRequest "20000").Path 20000
      (demoCfg 10 false true) demoAsset 47 (str "V300/7.m4s")
      rfl (by decide) rfl (by decide) (by decide) (Or.inr (Or.inl (by decide))) (by decide)
      rfl).2.2.2 (by decide)⟩

/-- C3, the code at the failing input. Stream start at 10 s and `nowMS` = 5000:
the request is 5000 ms before the start, and the too-early response reports
`StartTimeS - nowMS` = 10 - 5000 = -4990 as the number of milliseconds. -/
theorem tooEarly_reports_seconds_minus_millis :
    (5000 : Int) < wrapInt64 ((demoCfg 10 true false).StartTimeS * 1000)
    ∧ (demoCfg 10 true false).StartTimeS * 1000 - 5000 = 5000
    ∧ livesimHandlerFunc ⟨0⟩
        (demoCollaborators (Except.ok (demoCfg 10 true false)) (false, none) none none)
        ⟨0, 0⟩ (demoRequest "5000") =
      ⟨[Call.findAsset], Reply.httpError (str "-4990ms too early") StatusTooEarly⟩ := by
  decide


/-- C2. Whenever the whole seconds elapsed since process start,
`(now - InitTime) / 1000`, equal one of the 25 literal trigger instants 12, 27,
42, 57, 72, 87, 102, 117, 132, 147, 162, 177, 192, 207, 222, 237, 252, 267,
282, 297, 312, 327, 342, 357, 373, `ifHandoverPeriod` is true; these are the
entries of the table `handovermoment`. In particular the predicate is true at
12, 27 and 373 elapsed seconds, and it is false at 20 elapsed seconds. -/
theorem ifHandoverPeriod_trigger_table (InitTime nowTime : Int) :
    (∀ h ∈ ([12, 27, 42, 57, 72, 87, 102, 117, 132, 147, 162, 177, 192, 207, 222, 237,
          252, 267, 282, 297, 312, 327, 342, 357, 373] : List Int),
        handoverPeriod InitTime nowTime = h → ifHandoverPeriod InitTime nowTime = true)
    ∧ (∀ h ∈ handovermoment, handoverPeriod InitTime nowTime = h →
        ifHandoverPeriod InitTime nowTime = true)
    ∧ (handoverPeriod InitTime nowTime = 12 → ifHandoverPeriod InitTime nowTime = true)
    ∧ (handoverPeriod InitTime nowTime = 27 → ifHandoverPeriod InitTime nowTime = true)
    ∧ (handoverPeriod InitTime nowTime = 373 → ifHandoverPeriod InitTime nowTime = true)
    ∧ (handoverPeriod InitTime nowTime = 20 → ifHandoverPeriod InitTime nowTime = false) := by
  refine ⟨?_, ?_, ?_, ?_, ?_, ?_⟩
  · intro h hmem hp
    rw [ifHandoverPeriod_eq_true_iff, hp]
    exact hmem
  · intro h hmem hp
    rw [ifHandoverPeriod_eq_true_iff, hp]
    exact hmem
  · intro hp
    rw [ifHandoverPeriod_eq_true_iff, hp]
    decide
  · intro hp
    rw [ifHandoverPeriod_eq_true_iff, hp]
    decide
  · intro hp
    rw [ifHandoverPeriod_eq_true_iff, hp]
    decide
  · intro hp
    rw [← Bool.not_eq_true, ifHandoverPeriod_eq_true_iff, hp]
    decide

/-- Witness of C2: a process started at instant 1000 is in a handover period at
the instants 13500, 28000, 43000, 358999 and 374999 (12, 27, 42, 357 and 373
elapsed seconds), and not at the instant 21000 (20 elapsed seconds). -/
theorem ifHandoverPeriod_trigger_table_witness :
    ifHandoverPeriod 1000 13500 = true ∧ ifHandoverPeriod 1000 28000 = true
    ∧ ifHandoverPeriod 1000 43000 = true ∧ ifHandoverPeriod 1000 358999 = true
    ∧ ifHandoverPeriod 1000 374999 = true ∧ ifHandoverPeriod 1000 21000 = false :=
  ⟨(ifHandoverPeriod_trigger_table 1000 13500).1 12 (by decide) (by decide),
   (ifHandoverPeriod_trigger_table 1000 28000).2.2.2.1 (by decide),
   (ifHandoverPeriod_trigger_table 1000 43000).1 42 (by decide) (by decide),
   (ifHandoverPeriod_trigger_table 1000 358999).1 357 (by decide) (by decide),
   (ifHandoverPeriod_trigger_table 1000 374999).2.2.2.2.1 (by decide),
   (ifHandoverPeriod_trigger_table 1000 21000).2.2.2.2.2 (by decide)⟩

/-- C5, counterexample. At 11500 ms after process start the elapsed time lies
strictly between 1000*(12-1) and 1000*(12+1) for the trigger 12, and
`ifHandoverPeriod` is false. -/
theorem ifHandoverPeriod_not_two_second_window :
    (12 : Int) ∈ handovermoment
    ∧ 1000 * (12 - 1) < elapsedMS 0 11500 ∧ elapsedMS 0 11500 < 1000 * (12 + 1)
    ∧ ifHandoverPeriod 0 11500 = false := by decide

/-- C5, amended. For every elapsed time `e` since process start, in
milliseconds, `ifHandoverPeriod` is true exactly when the whole seconds of `e`
equal some trigger `h` of the table, that is iff there is a trigger `h` with
`1000*h ≤ e < 1000*(h+1)`. -/
theorem ifHandoverPeriod_iff_trigger_second (InitTime nowTime : Int) :
    ifHandoverPeriod InitTime nowTime = true ↔
      ∃ h ∈ handovermoment, 1000 * h ≤ elapsedMS InitTime nowTime
        ∧ elapsedMS InitTime nowTime < 1000 * (h + 1) := by
  rw [ifHandoverPeriod_eq_true_iff]
  constructor
  · intro hmem
    exact ⟨_, hmem, (tdiv_thousand_eq_iff _ _ (handovermoment_pos _ hmem)).mp rfl⟩
  · rintro ⟨h, hmem, hlo, hhi⟩
    have : handoverPeriod InitTime nowTime = h :=
      (tdiv_thousand_eq_iff _ _ (handovermoment_pos _ hmem)).mpr ⟨hlo, hhi⟩
    rw [this]
    exact hmem

/-- C4, counterexample. With `nowMS` = 20000 not before the stream start at 10 s,
a media segment request whose `writeLiveSegment` returns an `errTooEarly` is
answered with the too-early status, after `writeSegment` was invoked. -/
theorem tooEarly_status_after_stream_start :
    ¬ ((20000 : Int) < wrapInt64 ((demoCfg 10 true false).StartTimeS * 1000))
    ∧ livesimHandlerFunc ⟨0⟩
        (demoCollaborators (Except.ok (demoCfg 10 true false)) (false, none) none
          (some demoTooEarly))
        ⟨0, 0⟩ (demoRequest "20000") =
      ⟨[Call.findAsset, Call.writeSegment, Call.writeInitSegment, Call.writeLiveSegment],
        Reply.httpError (str "too early by 3000ms") StatusTooEarly⟩ := by
  decide

/-- C4, amended. For every request with a valid configuration and a known
asset, the handler answers with the too-early status exactly when the pre-start
check `nowMS < StartTimeS*1000` (in the 64-bit arithmetic of the handler) holds
or the extension is `.mp4`, `.m4s` or `.cmfv` and `writeSegment` returns an
error that is an `errTooEarly` and not `errNotFound`; when the pre-start check
holds, the only call made is the asset lookup: neither `writeLiveMPD` nor
`writeSegment` is invoked. -/
theorem tooEarly_status_iff (s : Server) (c : Collaborators) (clock : Clock)
    (r : Request) (u : GoString) (nowMS : Int) (cfg : ResponseConfig) (a : asset)
    (hu : c.urlParse r.Path = some u) (hn : readNowMS clock r = some nowMS)
    (hc : c.processURLCfg u nowMS = Except.ok cfg)
    (ha : c.findAsset cfg.URLContentPart = some a) :
    ((livesimHandlerFunc s c clock r).reply.code = some StatusTooEarly ↔
      (nowMS < wrapInt64 (cfg.StartTimeS * 1000)
        ∨ ((Ext r.Path = str ".mp4" ∨ Ext r.Path = str ".m4s" ∨ Ext r.Path = str ".cmfv")
          ∧ ∃ b seg err, TrimPrefix cfg.URLContentPart a.AssetPath = b :: seg
            ∧ (writeSegment c cfg a seg nowMS (dynamicModeOf s clock cfg)).2 = some err
            ∧ err.isNotFound = false ∧ err.asTooEarly ≠ none)))
    ∧ (nowMS < wrapInt64 (cfg.StartTimeS * 1000) →
        (livesimHandlerFunc s c clock r).calls = [Call.findAsset]
        ∧ Call.writeLiveMPD ∉ (livesimHandlerFunc s c clock r).calls
        ∧ Call.writeSegment ∉ (livesimHandlerFunc s c clock r).calls) := by
  rw [handler_eq_afterLookup s c clock r u nowMS cfg a hu hn hc ha]
  by_cases hearly : nowMS < wrapInt64 (cfg.StartTimeS * 1000)
  · rw [afterLookup_early s c clock _ cfg a nowMS hearly]
    simp [hearly, Reply.code]
  · rw [afterLookup_started s c clock _ cfg a nowMS hearly]
    refine ⟨?_, fun h => absurd h hearly⟩
    rcases switchExt_Ext_cases s c clock r.Path cfg a nowMS with
      ⟨hmpd, hsw⟩ | ⟨hext, _, hsw⟩ | ⟨_, hnext, hsw⟩
    · rw [hsw]
      have hno : ¬ (Ext r.Path = str ".mp4" ∨ Ext r.Path = str ".m4s"
          ∨ Ext r.Path = str ".cmfv") := by
        rw [hmpd]; decide
      constructor
      · intro h
        exact absurd h (mpdCase_code c cfg a nowMS)
      · rintro (h | ⟨h, _⟩)
        · exact absurd h hearly
        · exact absurd h hno
    · rw [hsw]
      cases hseg : TrimPrefix cfg.URLContentPart a.AssetPath with
      | nil =>
        have hp : segmentCase s c clock cfg a nowMS = ⟨[Call.findAsset], Reply.panic⟩ := by
          simp only [segmentCase, hseg]
        rw [hp]
        simp [Reply.code, hearly]
      | cons b seg =>
        rw [segmentCase_cons s c clock cfg a nowMS b seg hseg]
        cases hw : (writeSegment c cfg a seg nowMS (dynamicModeOf s clock cfg)).2 with
        | none =>
          constructor
          · intro h
            simp [Reply.code] at h
          · rintro (h | ⟨_, b1, seg1, err1, h1, h2, _, _⟩)
            · exact absurd h hearly
            · have hseg1 : seg = seg1 := (List.cons.inj h1).2
              subst hseg1
              rw [hw] at h2
              exact absurd h2 (by simp)
        | some err =>
          have hcode := (segmentErrorReply_code err).2
          simp only [hcode]
          constructor
          · intro h
            exact Or.inr ⟨hext, b, seg, err, rfl, hw, h.1, h.2⟩
          · rintro (h | ⟨_, b1, seg1, err1, h1, h2, h3, h4⟩)
            · exact absurd h hearly
            · have hseg1 : seg = seg1 := (List.cons.inj h1).2
              subst hseg1
              have herr1 : err = err1 := by
                rw [hw] at h2
                exact Option.some.inj h2
              subst herr1
              exact ⟨h3, h4⟩
    · rw [hsw]
      simp [Reply.code, StatusNotFound, StatusTooEarly, hearly, hnext]

/-- Witness of C4: stream start at 10 s and `nowMS` = 5000; the answer is the
too-early status and the only call made is the asset lookup. -/
theorem tooEarly_status_iff_witness :
    (livesimHandlerFunc ⟨0⟩
        (demoCollaborators (Except.ok (demoCfg 10 true false)) (false, none) none none)
        ⟨0, 0⟩ (demoRequest "5000")).reply.code = some StatusTooEarly
    ∧ (livesimHandlerFunc ⟨0⟩
        (demoCollaborators (Except.ok (demoCfg 10 true false)) (false, none) none none)
        ⟨0, 0⟩ (demoRequest "5000")).calls = [Call.findAsset] :=
  ⟨(tooEarly_status_iff ⟨0⟩
      (demoCollaborators (Except.ok (demoCfg 10 true false)) (false, none) none none)
      ⟨0, 0⟩ (demoRequest "5000") (demoRequest "5000").Path 5000 (demoCfg 10 true false)
      demoAsset rfl (by decide) rfl (by decide)).1.mpr (Or.inl (by decide)),
   ((tooEarly_status_iff ⟨0⟩
      (demoCollaborators (Except.ok (demoCfg 10 true false)) (false, none) none none)
      ⟨0, 0⟩ (demoRequest "5000") (demoRequest "5000").Path 5000 (demoCfg 10 true false)
      demoAsset rfl (by decide) rfl (by decide)).2 (by decide)).1⟩

/-- C6, counterexample. Two runs on the same request with the override
`nowMS` = 20000, the same registry and the same process-start instant 1000, one
with the wall clock at 28000 and one with the wall clock at 31000: the first
delivers through `writeChunkedSegment`, the second through `writeLiveSegment`. -/
theorem override_outcome_depends_on_wall_clock :
    Atoi (demoRequest "20000").nowMSValue = some 20000
    ∧ livesimHandlerFunc ⟨1000⟩
        (demoCollaborators (Except.ok (demoCfg 10 false true)) (false, none) none none)
        ⟨28000, 28000⟩ (demoRequest "20000") =
      ⟨[Call.findAsset, Call.writeSegment, Call.writeInitSegment, Call.writeChunkedSegment],
        Reply.done⟩
    ∧ livesimHandlerFunc ⟨1000⟩
        (demoCollaborators (Except.ok (demoCfg 10 false true)) (false, none) none none)
        ⟨31000, 31000⟩ (demoRequest "20000") =
      ⟨[Call.findAsset, Call.writeSegment, Call.writeInitSegment, Call.writeLiveSegment],
        Reply.done⟩ := by
  decide

/-- C6, amended. For every request that carries a parsable `nowMS` override,
the outcome depends on the wall clock only through the handover predicate,
which is evaluated on the wall clock and the process-start instant: two runs
that differ only in the wall-clock readings produce the same outcome whenever
the handover predicate has the same value at both readings, and also whenever
the configuration has `DynamicChunkFlag` off or the pre-start check
`nowMS < StartTimeS*1000` holds (the too-early decision is a function of the
request and `nowMS` alone). -/
theorem override_pins_time_up_to_handover (s : Server) (c : Collaborators)
    (clock1 clock2 : Clock) (r : Request) (n : Int)
    (hne : r.nowMSValue ≠ []) (hn : Atoi r.nowMSValue = some n) :
    (ifHandoverPeriod s.InitTime clock1.atHandover =
        ifHandoverPeriod s.InitTime clock2.atHandover →
      livesimHandlerFunc s c clock1 r = livesimHandlerFunc s c clock2 r)
    ∧ (∀ u cfg, c.urlParse r.Path = some u → c.processURLCfg u n = Except.ok cfg →
        (cfg.DynamicChunkFlag = false ∨ n < wrapInt64 (cfg.StartTimeS * 1000)) →
        livesimHandlerFunc s c clock1 r = livesimHandlerFunc s c clock2 r) := by
  have hr1 : readNowMS clock1 r = some n := by simp only [readNowMS, if_pos hne, hn]
  have hr2 : readNowMS clock2 r = some n := by simp only [readNowMS, if_pos hne, hn]
  have key : (∀ cfg, c.urlParse r.Path ≠ none →
        (∀ u, c.urlParse r.Path = some u → c.processURLCfg u n = Except.ok cfg) →
        dynamicModeOf s clock1 cfg = dynamicModeOf s clock2 cfg
          ∨ n < wrapInt64 (cfg.StartTimeS * 1000)) →
      livesimHandlerFunc s c clock1 r = livesimHandlerFunc s c clock2 r := by
    intro hk
    cases hu : c.urlParse r.Path with
    | none => simp only [livesimHandlerFunc, hu]
    | some u =>
      cases hc : c.processURLCfg u n with
      | error err => simp only [livesimHandlerFunc, hu, hr1, hr2, hc]
      | ok cfg =>
        cases ha : c.findAsset cfg.URLContentPart with
        | none => simp only [livesimHandlerFunc, hu, hr1, hr2, hc, ha]
        | some a =>
          rw [handler_eq_afterLookup s c clock1 r u n cfg a hu hr1 hc ha,
            handler_eq_afterLookup s c clock2 r u n cfg a hu hr2 hc ha]
          have hcfg : ∀ u1, c.urlParse r.Path = some u1 →
              c.processURLCfg u1 n = Except.ok cfg := by
            intro u1 hu1
            rw [hu] at hu1
            rw [← Option.some.inj hu1]
            exact hc
          rcases hk cfg (by simp [hu]) hcfg with hdyn | hearly
          · exact afterLookup_congr s c clock1 clock2 _ cfg a n hdyn
          · simp only [afterLookup_early s c _ _ cfg a n hearly]
  constructor
  · intro heq
    apply key
    intro cfg _ _
    left
    simp only [dynamicModeOf, heq]
  · intro u cfg hu hc hcase
    apply key
    intro cfg1 _ hcfg1
    have hsame : cfg1 = cfg := by
      have h1 := hcfg1 u hu
      rw [hc] at h1
      exact (Except.ok.inj h1).symm
    subst hsame
    rcases hcase with hoff | hearly
    · left
      simp only [dynamicModeOf, hoff]
      rfl
    · exact Or.inr hearly

/-- Witness of C6: the override `nowMS` = 20000 and two wall-clock readings,
29500 and 31000, at both of which the handover predicate is false (process
start at 1000): the two runs have the same outcome. -/
theorem override_pins_time_up_to_handover_witness :
    livesimHandlerFunc ⟨1000⟩
        (demoCollaborators (Except.ok (demoCfg 10 false true)) (false, none) none none)
        ⟨29500, 29500⟩ (demoRequest "20000") =
      livesimHandlerFunc ⟨1000⟩
        (demoCollaborators (Except.ok (demoCfg 10 false true)) (false, none) none none)
        ⟨31000, 31000⟩ (demoRequest "20000") :=
  (override_pins_time_up_to_handover ⟨1000⟩
    (demoCollaborators (Except.ok (demoCfg 10 false true)) (false, none) none none)
    ⟨29500, 29500⟩ ⟨31000, 31000⟩ (demoRequest "20000") 20000 (by decide) (by decide)).1
    (by decide)

/-- C7, counterexample. `writeLiveSegment` returns an error that wraps both
`errNotFound` and an `errTooEarly`: the test `errors.Is(err, errNotFound)` comes
first in the switch, and this too-early error is reported as 404. -/
theorem tooEarly_and_notFound_error_status_404 :
    (⟨str "not found: too early by 3000ms", true, some (str "too early by 3000ms")⟩
        : GoError).asTooEarly ≠ none
    ∧ livesimHandlerFunc ⟨0⟩
        (demoCollaborators (Except.ok (demoCfg 10 true false)) (false, none) none
          (some ⟨str "not found: too early by 3000ms", true,
            some (str "too early by 3000ms")⟩))
        ⟨0, 0⟩ (demoRequest "20000") =
      ⟨[Call.findAsset, Call.writeSegment, Call.writeInitSegment, Call.writeLiveSegment],
        Reply.httpError (str "Not Found") StatusNotFound⟩ := by
  decide

/-- C7, amended. For every error `err` returned by `writeSegment` to the
handler, the reply is 404 "Not Found" when `err` is (wraps) `errNotFound`; it is
425 with the message of the `errTooEarly` when `err` is an `errTooEarly` and not
`errNotFound`; it is 500 "writeSegment" for any other error. Hence the status
is 404 exactly for a not-found error and 425 exactly for a too-early error that
is not a not-found error: a not-found error is never reported as 425, and a
too-early error is never reported as 404 unless it is also a not-found error. -/
theorem writeSegment_error_status (s : Server) (c : Collaborators) (clock : Clock)
    (r : Request) (u : GoString) (nowMS : Int) (cfg : ResponseConfig) (a : asset)
    (b : UInt8) (seg : GoString) (err : GoError)
    (hu : c.urlParse r.Path = some u) (hn : readNowMS clock r = some nowMS)
    (hc : c.processURLCfg u nowMS = Except.ok cfg)
    (ha : c.findAsset cfg.URLContentPart = some a)
    (hstart : ¬ nowMS < wrapInt64 (cfg.StartTimeS * 1000))
    (hext : Ext r.Path = str ".mp4" ∨ Ext r.Path = str ".m4s" ∨ Ext r.Path = str ".cmfv")
    (hseg : TrimPrefix cfg.URLContentPart a.AssetPath = b :: seg)
    (herr : (writeSegment c cfg a seg nowMS (dynamicModeOf s clock cfg)).2 = some err) :
    (err.isNotFound = true →
      (livesimHandlerFunc s c clock r).reply =
        Reply.httpError (str "Not Found") StatusNotFound)
    ∧ (∀ text, err.isNotFound = false → err.asTooEarly = some text →
      (livesimHandlerFunc s c clock r).reply = Reply.httpError text StatusTooEarly)
    ∧ (err.isNotFound = false → err.asTooEarly = none →
      (livesimHandlerFunc s c clock r).reply =
        Reply.httpError (str "writeSegment") StatusInternalServerError)
    ∧ ((livesimHandlerFunc s c clock r).reply.code = some StatusNotFound ↔
        err.isNotFound = true)
    ∧ ((livesimHandlerFunc s c clock r).reply.code = some StatusTooEarly ↔
        (err.isNotFound = false ∧ err.asTooEarly ≠ none))
    ∧ (err.isNotFound = true →
        (livesimHandlerFunc s c clock r).reply.code ≠ some StatusTooEarly)
    ∧ (err.asTooEarly ≠ none → err.isNotFound = false →
        (livesimHandlerFunc s c clock r).reply.code ≠ some StatusNotFound) := by
  rw [handler_media_segment s c clock r u nowMS cfg a b seg hu hn hc ha hstart hext hseg]
  simp only [herr]
  refine ⟨?_, ?_, ?_, (segmentErrorReply_code err).1, (segmentErrorReply_code err).2, ?_, ?_⟩
  · intro h
    simp [segmentErrorReply, h]
  · intro text h1 h2
    simp [segmentErrorReply, h1, h2]
  · intro h1 h2
    simp [segmentErrorReply, h1, h2]
  · intro h1 h2
    have h3 := ((segmentErrorReply_code err).2.mp h2).1
    rw [h1] at h3
    exact absurd h3 (by decide)
  · intro _ h1 h2
    have h3 := (segmentErrorReply_code err).1.mp h2
    rw [h1] at h3
    exact absurd h3 (by decide)

/-- Witness of C7: `writeLiveSegment` returns an `errTooEarly` that is not a
not-found error; the reply is 425 with the message of that error. -/
theorem writeSegment_error_status_witness :
    (livesimHandlerFunc ⟨0⟩
        (demoCollaborators (Except.ok (demoCfg 10 true false)) (false, none) none
          (some demoTooEarly))
        ⟨0, 0⟩ (demoRequest "20000")).reply =
      Reply.httpError (str "too early by 3000ms") StatusTooEarly :=
  (writeSegment_error_status ⟨0⟩
    (demoCollaborators (Except.ok (demoCfg 10 true false)) (false, none) none
      (some demoTooEarly))
    ⟨0, 0⟩ (demoRequest "20000") (demoRequest "20000").Path 20000 (demoCfg 10 true false)
    demoAsset 47 (str "V300/7.m4s") demoTooEarly
    rfl (by decide) rfl (by decide) (by decide) (Or.inr (Or.inl (by decide))) (by decide)
    (by decide)).2.1 (str "too early by 3000ms") rfl rfl

/-- C8, counterexample. A request whose path fails configuration parsing
(`processURLCfg` returns an error) is answered with status 500, not with a
400-class status. -/
theorem processURLCfg_error_status_500 :
    livesimHandlerFunc ⟨0⟩
        (demoCollaborators (Except.error ⟨str "unknown option", false, none⟩) (false, none)
          none none)
        ⟨0, 0⟩ (demoRequest "20000") =
      ⟨[], Reply.httpError (str "processURL error") StatusInternalServerError⟩
    ∧ StatusInternalServerError = 500 := by
  decide

/-- C8, amended. For every request whose path passes `url.Parse`: when the
`nowMS` query value is non-empty and not a parsable integer, the handler
answers 400 "bad nowMS query"; when the path fails configuration parsing
(`processURLCfg` returns an error), the handler answers 500 "processURL error".
In both cases no asset lookup and no delivery call is made. -/
theorem invalid_input_status (s : Server) (c : Collaborators) (clock : Clock)
    (r : Request) (u : GoString) (hu : c.urlParse r.Path = some u) :
    (r.nowMSValue ≠ [] → Atoi r.nowMSValue = none →
      livesimHandlerFunc s c clock r =
        ⟨[], Reply.httpError (str "bad nowMS query") StatusBadRequest⟩)
    ∧ (∀ nowMS err, readNowMS clock r = some nowMS →
      c.processURLCfg u nowMS = Except.error err →
      livesimHandlerFunc s c clock r =
        ⟨[], Reply.httpError (str "processURL error") StatusInternalServerError⟩) := by
  constructor
  · intro hne hbad
    have hr : readNowMS clock r = none := by simp only [readNowMS, if_pos hne, hbad]
    simp only [livesimHandlerFunc, hu, hr]
  · intro nowMS err hr hc
    simp only [livesimHandlerFunc, hu, hr, hc]

/-- Witness of C8: the query value `abc` is answered with 400 "bad nowMS query"
and an empty list of calls. -/
theorem invalid_input_status_witness :
    livesimHandlerFunc ⟨0⟩
        (demoCollaborators (Except.ok (demoCfg 10 true false)) (false, none) none none)
        ⟨0, 0⟩ (demoRequest "abc") =
      ⟨[], Reply.httpError (str "bad nowMS query") StatusBadRequest⟩ :=
  (invalid_input_status ⟨0⟩
    (demoCollaborators (Except.ok (demoCfg 10 true false)) (false, none) none none)
    ⟨0, 0⟩ (demoRequest "abc") (demoRequest "abc").Path rfl).1 (by decide) (by decide)

/-- C9, counterexample. The registry answers every segment path as an
initialization segment (`writeInitSegment` reports true with no error) and the
stream starts at 10 s. The same request is answered 425 without any call of
`writeInitSegment` at `nowMS` = 5000, and with the init segment at
`nowMS` = 20000: the outcome depends on now. -/
theorem initSegment_request_before_start :
    (livesimHandlerFunc ⟨0⟩
        (demoCollaborators (Except.ok (demoCfg 10 true false)) (true, none) none none)
        ⟨0, 0⟩ (demoRequest "5000")).calls = [Call.findAsset]
    ∧ (livesimHandlerFunc ⟨0⟩
        (demoCollaborators (Except.ok (demoCfg 10 true false)) (true, none) none none)
        ⟨0, 0⟩ (demoRequest "5000")).reply.code = some StatusTooEarly
    ∧ livesimHandlerFunc ⟨0⟩
        (demoCollaborators (Except.ok (demoCfg 10 true false)) (true, none) none none)
        ⟨0, 0⟩ (demoRequest "20000") =
      ⟨[Call.findAsset, Call.writeSegment, Call.writeInitSegment], Reply.done⟩ := by
  decide

/-- C9, amended. For every segment request that has passed the pre-start check
of the handler (`nowMS` not before `StartTimeS*1000`) and identifies an
initialization segment (`writeInitSegment` reports true with no error),
`writeSegment` returns no error after the single call of `writeInitSegment`,
whatever `nowMS` and `dynamicMode` it is given, and the handler makes the calls
`findAsset`, `writeSegment`, `writeInitSegment` and returns without an error
reply, whatever the process-start instant and the clock readings: neither
`writeLiveSegment` nor `writeChunkedSegment` is invoked. -/
theorem initSegment_bypasses_delivery_choice (s : Server) (c : Collaborators)
    (clock : Clock) (r : Request) (u : GoString) (nowMS : Int) (cfg : ResponseConfig)
    (a : asset) (b : UInt8) (seg : GoString)
    (hu : c.urlParse r.Path = some u) (hn : readNowMS clock r = some nowMS)
    (hc : c.processURLCfg u nowMS = Except.ok cfg)
    (ha : c.findAsset cfg.URLContentPart = some a)
    (hstart : ¬ nowMS < wrapInt64 (cfg.StartTimeS * 1000))
    (hext : Ext r.Path = str ".mp4" ∨ Ext r.Path = str ".m4s" ∨ Ext r.Path = str ".cmfv")
    (hseg : TrimPrefix cfg.URLContentPart a.AssetPath = b :: seg)
    (hinit : c.writeInitSegment cfg a seg = (true, none)) :
    (∀ nowMS2 dynamicMode,
      writeSegment c cfg a seg nowMS2 dynamicMode = ([Call.writeInitSegment], none))
    ∧ livesimHandlerFunc s c clock r =
        ⟨[Call.findAsset, Call.writeSegment, Call.writeInitSegment], Reply.done⟩
    ∧ (∀ s2 atHandover2, livesimHandlerFunc s2 c ⟨clock.atRequest, atHandover2⟩ r =
        livesimHandlerFunc s c clock r) := by
  have hws : ∀ nowMS2 dynamicMode,
      writeSegment c cfg a seg nowMS2 dynamicMode = ([Call.writeInitSegment], none) := by
    intro nowMS2 dynamicMode
    simp [writeSegment, hinit]
  have hrun : ∀ (s1 : Server) (clock1 : Clock), readNowMS clock1 r = some nowMS →
      livesimHandlerFunc s1 c clock1 r =
        ⟨[Call.findAsset, Call.writeSegment, Call.writeInitSegment], Reply.done⟩ := by
    intro s1 clock1 hn1
    rw [handler_media_segment s1 c clock1 r u nowMS cfg a b seg hu hn1 hc ha hstart hext hseg,
      hws]
  refine ⟨hws, hrun s clock hn, ?_⟩
  intro s2 atHandover2
  have hn2 : readNowMS ⟨clock.atRequest, atHandover2⟩ r = some nowMS := by
    rw [← hn]
    rfl
  rw [hrun s2 _ hn2, hrun s clock hn]

/-- Witness of C9: an init segment request at `nowMS` = 20000, after the stream
start at 10 s, with the chunked capability enabled and the handover predicate
true: the init segment is emitted and no other writer is called. -/
theorem initSegment_bypasses_delivery_choice_witness :
    livesimHandlerFunc ⟨1000⟩
        (demoCollaborators (Except.ok (demoCfg 10 false true)) (true, none) none none)
        ⟨28000, 28000⟩ (demoRequest "20000") =
      ⟨[Call.findAsset, Call.writeSegment, Call.writeInitSegment], Reply.done⟩ :=
  (initSegment_bypasses_delivery_choice ⟨1000⟩
    (demoCollaborators (Except.ok (demoCfg 10 false true)) (true, none) none none)
    ⟨28000, 28000⟩ (demoRequest "20000") (demoRequest "20000").Path 20000
    (demoCfg 10 false true) demoAsset 47 (str "V300/7.m4s")
    rfl (by decide) rfl (by decide) (by decide) (Or.inr (Or.inl (by decide))) (by decide)
    rfl).2.1

/-- C10. `filepath.Ext` returns the empty string or a string starting with
a dot, so the labels `cmfa` and `cmft` never match. For every request with a
valid configuration, a known asset and now not before the stream start, whose
segment part starts with the slash that the comment of line 98 states
("includes heading /"): `writeSegment` is reached exactly when the extension is
`.mp4`, `.m4s` or `.cmfv`; `writeLiveMPD` is reached exactly when the extension
is `.mpd`; every other extension, `.cmfa` and `.cmft` included, is answered
with 404 "unknown file extension". -/
theorem extension_dispatch (s : Server) (c : Collaborators) (clock : Clock)
    (r : Request) (u : GoString) (nowMS : Int) (cfg : ResponseConfig) (a : asset)
    (seg : GoString)
    (hu : c.urlParse r.Path = some u) (hn : readNowMS clock r = some nowMS)
    (hc : c.processURLCfg u nowMS = Except.ok cfg)
    (ha : c.findAsset cfg.URLContentPart = some a)
    (hstart : ¬ nowMS < wrapInt64 (cfg.StartTimeS * 1000))
    (hslash : TrimPrefix cfg.URLContentPart a.AssetPath = 47 :: seg) :
    (Ext r.Path = [] ∨ ∃ t, Ext r.Path = 46 :: t)
    ∧ (Ext r.Path ≠ str "cmfa" ∧ Ext r.Path ≠ str "cmft")
    ∧ (Call.writeSegment ∈ (livesimHandlerFunc s c clock r).calls ↔
        (Ext r.Path = str ".mp4" ∨ Ext r.Path = str ".m4s" ∨ Ext r.Path = str ".cmfv"))
    ∧ (Call.writeLiveMPD ∈ (livesimHandlerFunc s c clock r).calls ↔
        Ext r.Path = str ".mpd")
    ∧ (Ext r.Path ≠ str ".mpd" →
        ¬ (Ext r.Path = str ".mp4" ∨ Ext r.Path = str ".m4s" ∨ Ext r.Path = str ".cmfv") →
        livesimHandlerFunc s c clock r =
          ⟨[Call.findAsset], Reply.httpError (str "unknown file extension") StatusNotFound⟩)
    ∧ ((Ext r.Path = str ".cmfa" ∨ Ext r.Path = str ".cmft") →
        livesimHandlerFunc s c clock r =
          ⟨[Call.findAsset],
            Reply.httpError (str "unknown file extension") StatusNotFound⟩) := by
  rw [handler_eq_afterLookup s c clock r u nowMS cfg a hu hn hc ha,
    afterLookup_started s c clock _ cfg a nowMS hstart]
  have hunknown : Ext r.Path ≠ str ".mpd" →
      ¬ (Ext r.Path = str ".mp4" ∨ Ext r.Path = str ".m4s" ∨ Ext r.Path = str ".cmfv") →
      switchExt s c clock (Ext r.Path) cfg a nowMS =
        ⟨[Call.findAsset],
          Reply.httpError (str "unknown file extension") StatusNotFound⟩ := by
    intro h1 h2
    rcases switchExt_Ext_cases s c clock r.Path cfg a nowMS with
      ⟨hmpd, _⟩ | ⟨hext, _, _⟩ | ⟨_, _, hsw⟩
    · exact absurd hmpd h1
    · exact absurd hext h2
    · exact hsw
  have hsegcalls : ∀ calls : List Call,
      (calls = [Call.writeInitSegment] ∨ calls = [Call.writeInitSegment, Call.writeChunkedSegment]
        ∨ calls = [Call.writeInitSegment, Call.writeLiveSegment]) →
      Call.writeLiveMPD ∉ Call.findAsset :: Call.writeSegment :: calls := by
    rintro calls (h | h | h) <;> rw [h] <;> decide
  refine ⟨Ext_shape r.Path, ⟨Ext_ne_cmfa r.Path, Ext_ne_cmft r.Path⟩, ?_, ?_, hunknown, ?_⟩
  · constructor
    · intro hmem
      rcases switchExt_Ext_cases s c clock r.Path cfg a nowMS with
        ⟨_, hsw⟩ | ⟨hext, _, _⟩ | ⟨_, _, hsw⟩
      · rw [hsw, mpdCase_calls] at hmem
        exact absurd hmem (by decide)
      · exact hext
      · rw [hsw] at hmem
        exact absurd hmem (by decide)
    · intro hext
      rw [switchExt_segment s c clock _ cfg a nowMS hext,
        segmentCase_cons s c clock cfg a nowMS 47 seg hslash]
      simp
  · rcases switchExt_Ext_cases s c clock r.Path cfg a nowMS with
      ⟨hmpd, hsw⟩ | ⟨_, hnmpd, hsw⟩ | ⟨hnmpd, _, hsw⟩
    · rw [hsw, mpdCase_calls]
      simp [hmpd]
    · rw [hsw]
      constructor
      · intro hmem
        exfalso
        rw [segmentCase_cons s c clock cfg a nowMS 47 seg hslash] at hmem
        exact hsegcalls _ (writeSegment_calls c cfg a seg nowMS _) hmem
      · intro h
        exact absurd h hnmpd
    · rw [hsw]
      constructor
      · intro hmem
        exact absurd hmem (by decide)
      · intro h
        exact absurd h hnmpd
  · intro hext
    apply hunknown
    · rcases hext with h | h <;> rw [h] <;> decide
    · rcases hext with h | h <;> rw [h] <;> decide

/-- Witness of C10: a request for `V300/7.cmfa` after the stream start, with
the segment part `/V300/7.cmfa`, is answered with 404 "unknown file extension". -/
theorem extension_dispatch_witness :
    livesimHandlerFunc ⟨0⟩
        (demoCollaborators (Except.ok ⟨str "testpic/V300/7.cmfa", 10, true, false, [], []⟩)
          (false, none) none none)
        ⟨0, 0⟩ ⟨str "/livesim2/testpic/V300/7.cmfa", str "20000"⟩ =
      ⟨[Call.findAsset], Reply.httpError (str "unknown file extension") StatusNotFound⟩ :=
  (extension_dispatch ⟨0⟩
    (demoCollaborators (Except.ok ⟨str "testpic/V300/7.cmfa", 10, true, false, [], []⟩)
      (false, none) none none)
    ⟨0, 0⟩ ⟨str "/livesim2/testpic/V300/7.cmfa", str "20000"⟩
    (str "/livesim2/testpic/V300/7.cmfa") 20000
    ⟨str "testpic/V300/7.cmfa", 10, true, false, [], []⟩ demoAsset (str "V300/7.cmfa")
    rfl (by decide) rfl (by decide) (by decide) (by decide)).2.2.2.2.2 (Or.inl (by decide))

end Livesim
